import Mathlib

/-!
Shallow embedding of the Local Food Wastage Management System
(`food.py`): a SQLite-backed dashboard over four tables
(Providers, Receivers, Food_Listings, Claims), with a dynamic filter
query, CRUD operations on Food_Listings, and a fixed report catalog.

Tables are modelled as Lean lists of records; SQL queries become list
functions; SQLite errors (UNIQUE constraint violations) become explicit
error values.
-/

/-- Calendar date, modelling the TEXT `YYYY-MM-DD` dates stored by the app. -/
structure Date where
  year : Nat
  month : Nat
  day : Nat
deriving DecidableEq, Repr

/-- Row of the `Providers` table. -/
structure Provider where
  Provider_ID : Int
  Name : String
  Provider_Type : String
  Contact : String
  City : String
deriving DecidableEq, Repr

/-- Row of the `Receivers` table. -/
structure Receiver where
  Receiver_ID : Int
  Name : String
  Contact : String
  City : String
deriving DecidableEq, Repr

/-- Row of the `Food_Listings` table. -/
structure FoodListing where
  Food_ID : Int
  Food_Name : String
  Food_Type : String
  Meal_Type : String
  Quantity : Int
  Expiry_Date : Date
  Provider_ID : Int
  Location : String
deriving DecidableEq, Repr

/-- Row of the `Claims` table. -/
structure Claim where
  Claim_ID : Int
  Food_ID : Int
  Receiver_ID : Int
  Status : String
deriving DecidableEq, Repr

/-- A database state after the four tables exist. -/
structure DB where
  providers : List Provider
  receivers : List Receiver
  listings : List FoodListing
  claims : List Claim
deriving DecidableEq, Repr

/-! ## Date arithmetic (sqlite `date(d, '+1 day')`) -/

/-- Gregorian leap year test. -/
def isLeap (y : Nat) : Bool :=
  (y % 4 == 0 && y % 100 != 0) || y % 400 == 0

/-- Number of days in a month. -/
def daysInMonth (y m : Nat) : Nat :=
  if m = 2 then (if isLeap y then 29 else 28)
  else if m = 4 ∨ m = 6 ∨ m = 9 ∨ m = 11 then 30
  else 31

/-- The next calendar day, with month and year rollover,
modelling sqlite `date(d, '+1 day')`. -/
def addDay (d : Date) : Date :=
  if d.day < daysInMonth d.year d.month then ⟨d.year, d.month, d.day + 1⟩
  else if d.month < 12 then ⟨d.year, d.month + 1, 1⟩
  else ⟨d.year + 1, 1, 1⟩

/-- Numeric key giving the chronological order of dates
(the order sqlite's normalized date strings compare in). -/
def dateKey (d : Date) : Nat :=
  d.year * 10000 + d.month * 100 + d.day

/-- Date comparison, as sqlite compares `date(...)` values. -/
def dateLe (a b : Date) : Prop := dateKey a ≤ dateKey b

instance : DecidableRel dateLe := fun a b => inferInstanceAs (Decidable (dateKey a ≤ dateKey b))

/-- A well-formed calendar date. -/
def ValidDate (d : Date) : Prop :=
  1 ≤ d.month ∧ d.month ≤ 12 ∧ 1 ≤ d.day ∧ d.day ≤ daysInMonth d.year d.month

instance : DecidablePred ValidDate := fun d => by unfold ValidDate; infer_instance

/-! ## SQLite `LIKE` (default, case-insensitive on ASCII) -/

/-- Fold an ASCII upper-case letter to lower case (sqlite's default
`LIKE` folds exactly the ASCII range). -/
def charLower (c : Char) : Char :=
  if 'A' ≤ c ∧ c ≤ 'Z' then Char.ofNat (c.toNat + 32) else c

/-- Character comparison under sqlite's default `LIKE` case folding. -/
def charEqCI (a b : Char) : Bool := charLower a == charLower b

/-- `p` holds of some suffix of the list (including the full list and `[]`). -/
def anySuffix (p : List Char → Bool) : List Char → Bool
  | [] => p []
  | c :: t => p (c :: t) || anySuffix p t

/-- sqlite `LIKE` pattern matching: `%` matches any sequence, `_` any
single character, other characters match up to ASCII case folding. -/
def likeMatch : List Char → List Char → Bool
  | [], t => t.isEmpty
  | p :: ps, t =>
    if p = '%' then anySuffix (fun u => likeMatch ps u) t
    else
      match t with
      | [] => false
      | c :: t' => (p = '_' || charEqCI p c) && likeMatch ps t'

/-- `Location LIKE '%' || pat || '%'` as executed by the filter query. -/
def likeContains (pat s : String) : Bool :=
  likeMatch ('%' :: (pat.data ++ ['%'])) s.data

/-- `s` occurs in `t` as a contiguous substring, up to ASCII case
folding: the spec's reading of the city filter. -/
def startsCI : List Char → List Char → Bool
  | [], _ => true
  | _ :: _, [] => false
  | p :: ps, c :: t => charEqCI p c && startsCI ps t

/-- Substring containment up to ASCII case folding. -/
def containsCI (s t : List Char) : Bool := anySuffix (fun u => startsCI s u) t

/-- The filter string uses no `LIKE` metacharacter. -/
def noWildcard (s : String) : Prop := ∀ c ∈ s.data, c ≠ '%' ∧ c ≠ '_'

instance : DecidablePred noWildcard := fun s => by unfold noWildcard; infer_instance

/-! ## Filter query and CRUD operations on `Food_Listings` -/

/-- The sidebar filter query: `SELECT * FROM Food_Listings WHERE 1=1`,
with a `LIKE` clause appended for each filter the user left non-empty
(Python truthiness: the clause is added iff the string is non-empty). -/
def filteredListings (city prov ftyp : String) (db : DB) : List FoodListing :=
  db.listings.filter fun f =>
    (if city = "" then true else likeContains city f.Location) &&
    (if prov = "" then true
     else db.providers.any fun p => p.Provider_ID == f.Provider_ID && likeContains prov p.Name) &&
    (if ftyp = "" then true else likeContains ftyp f.Food_Type)

/-- The Create branch: `INSERT INTO Food_Listings VALUES (?,?,?,?,?,?,?,?)`.
SQLite rejects a duplicate `Food_ID` (PRIMARY KEY) with a UNIQUE
constraint error; on success the row is appended. The second component
is the reported error, `none` on success. -/
def createFood (f : FoodListing) (db : DB) : DB × Option String :=
  if db.listings.any (fun g => g.Food_ID == f.Food_ID) then
    (db, some "UNIQUE constraint failed: Food_Listings.Food_ID")
  else ({ db with listings := db.listings ++ [f] }, none)

/-- The Update branch: `UPDATE Food_Listings SET Quantity=? WHERE Food_ID=?`.
The second component is sqlite's count of affected rows. -/
def updateFood (fid qty : Int) (db : DB) : DB × Nat :=
  ({ db with
      listings := db.listings.map fun f =>
        if f.Food_ID = fid then { f with Quantity := qty } else f },
   db.listings.countP fun f => f.Food_ID == fid)

/-- The Delete branch: `DELETE FROM Food_Listings WHERE Food_ID=?`. -/
def deleteFood (fid : Int) (db : DB) : DB :=
  { db with listings := db.listings.filter fun f => !(f.Food_ID == fid) }

/-- The Read branch: `SELECT * FROM Food_Listings LIMIT 20`. -/
def readListings (db : DB) : List FoodListing :=
  db.listings.take 20

/-! ## Report catalog (the claims' reports) -/

/-- `SELECT SUM(Quantity) FROM Food_Listings`: SQL `SUM` is `NULL`
(here `none`) when there are no input rows. -/
def totalFoodAvailable (db : DB) : Option Int :=
  match db.listings with
  | [] => none
  | _ :: _ => some ((db.listings.map (fun f => f.Quantity)).sum)

/-- Sort-key relation for the reports' `ORDER BY <count> DESC`. -/
def descBySnd (a b : String × Nat) : Prop := b.2 ≤ a.2

instance : DecidableRel descBySnd := fun a b => inferInstanceAs (Decidable (b.2 ≤ a.2))

instance : IsTotal (String × Nat) descBySnd := ⟨fun a b => (Nat.le_total b.2 a.2).imp id id⟩

instance : IsTrans (String × Nat) descBySnd := ⟨fun _ _ _ hab hbc => Nat.le_trans hbc hab⟩

/-- Total number of claim rows joined (by `Food_ID`) to listings named `n`:
the `COUNT(c.Claim_ID)` of the "Claims Per Food Item" group for `n`. -/
def nameClaimTotal (db : DB) (n : String) : Nat :=
  ((db.listings.filter fun f => f.Food_Name == n).map
    (fun f => (db.claims.filter fun c => c.Food_ID == f.Food_ID).length)).sum

/-- "Claims Per Food Item": `Food_Listings LEFT JOIN Claims`, grouped by
`f.Food_Name`, counting non-null `Claim_ID`s, `ORDER BY Claims DESC LIMIT 10`. -/
def claimsPerFoodItem (db : DB) : List (String × Nat) :=
  (List.insertionSort descBySnd
    (((db.listings.map (fun f => f.Food_Name)).dedup).map
      (fun n => (n, nameClaimTotal db n)))).take 10

/-- The joined multiset of `f.Location` values produced by
`Claims JOIN Food_Listings ON f.Food_ID = c.Food_ID`: one location per
(claim, matching listing) pair, as in SQL. -/
def joinedLocations (db : DB) : List String :=
  (db.claims.map fun c =>
    (db.listings.filter (fun f => f.Food_ID == c.Food_ID)).map fun f => f.Location).flatten

/-- "Claims by City": `Claims JOIN Food_Listings ON f.Food_ID = c.Food_ID`,
grouped by `f.Location`, `COUNT(*)`, `ORDER BY Claims DESC LIMIT 10`. -/
def claimsByCity (db : DB) : List (String × Nat) :=
  (List.insertionSort descBySnd
    ((joinedLocations db).dedup.map (fun c => (c, (joinedLocations db).count c)))).take 10

/-- Modelled from the spec's words for "Claims by City": for each claim,
the location of *the* listing the claim's `Food_ID` refers to. -/
def claimLocations (db : DB) : List String :=
  db.claims.filterMap fun c =>
    (db.listings.find? (fun f => f.Food_ID == c.Food_ID)).map fun f => f.Location

/-- Modelled from the spec's words for "Claims by City": the count of
claims grouped by the location of the claimed listing, top 10 by count
descending. -/
def claimsByCitySpec (db : DB) : List (String × Nat) :=
  (List.insertionSort descBySnd
    ((claimLocations db).dedup.map (fun c => (c, (claimLocations db).count c)))).take 10

/-- Expiry-date order used by "Listings Near Expiry"'s `ORDER BY`. -/
def expiryLe (a b : FoodListing) : Prop := dateLe a.Expiry_Date b.Expiry_Date

instance : DecidableRel expiryLe :=
  fun a b => inferInstanceAs (Decidable (dateLe a.Expiry_Date b.Expiry_Date))

instance : IsTotal FoodListing expiryLe :=
  ⟨fun a b => (Nat.le_total (dateKey a.Expiry_Date) (dateKey b.Expiry_Date)).imp id id⟩

instance : IsTrans FoodListing expiryLe := ⟨fun _ _ _ hab hbc => Nat.le_trans hab hbc⟩

/-- "Listings Near Expiry": rows with
`date(Expiry_Date) <= date(today, '+1 day')`, `ORDER BY date(Expiry_Date) ASC`,
no limit; `today` is a single value fixed for the whole report pass. -/
def listingsNearExpiry (today : Date) (db : DB) : List FoodListing :=
  List.insertionSort expiryLe
    (db.listings.filter fun f => decide (dateLe f.Expiry_Date (addDay today)))

/-! ## Schema initialization and seeding (`init_db`) -/

/-- A raw database file: each table either absent (`none`) or present. -/
structure RawDB where
  providers : Option (List Provider)
  receivers : Option (List Receiver)
  listings : Option (List FoodListing)
  claims : Option (List Claim)
deriving DecidableEq, Repr

/-- `INSERT`ing a batch of rows one by one, each checked against the
table's PRIMARY KEY; the first conflict raises a sqlite error. -/
def insertAllPK {α : Type} (key : α → Int) : List α → List α → Except String (List α)
  | tbl, [] => Except.ok tbl
  | tbl, r :: rows =>
    if tbl.any (fun x => key x == key r) then Except.error "UNIQUE constraint failed"
    else insertAllPK key (tbl ++ [r]) rows

/-- The bootstrap providers inserted by `init_db`. -/
def seedProviders : List Provider :=
  [⟨1, "FoodBank Hyderabad", "NGO", "9999999999", "Hyderabad"⟩,
   ⟨2, "FreshMart", "Supermarket", "8888888888", "Mumbai"⟩]

/-- The bootstrap receivers inserted by `init_db`. -/
def seedReceivers : List Receiver :=
  [⟨1, "Helping Hands", "7777777777", "Hyderabad"⟩,
   ⟨2, "City Shelter", "6666666666", "Mumbai"⟩]

/-- The first bootstrap listing inserted by `init_db`. -/
def riceRow : FoodListing := ⟨1, "Rice Bags", "Grain", "Lunch", 100, ⟨2025, 8, 20⟩, 1, "Hyderabad"⟩

/-- The second bootstrap listing inserted by `init_db`. -/
def breadRow : FoodListing := ⟨2, "Bread Packets", "Bakery", "Breakfast", 50, ⟨2025, 8, 18⟩, 2, "Mumbai"⟩

/-- The bootstrap food listings inserted by `init_db`. -/
def seedListings : List FoodListing := [riceRow, breadRow]

/-- The bootstrap claims inserted by `init_db`. -/
def seedClaims : List Claim :=
  [⟨1, 1, 1, "Completed"⟩, ⟨2, 2, 2, "Pending"⟩]

/-- `init_db`: `CREATE TABLE IF NOT EXISTS` for the four tables (a missing
table becomes an empty one, an existing table is kept), then the bootstrap
rows are inserted iff `SELECT COUNT(*) FROM Providers` is zero; any
`INSERT` failure propagates as the sqlite error. -/
def init_db (s : RawDB) : Except String RawDB :=
  let ps := s.providers.getD []
  let rs := s.receivers.getD []
  let ls := s.listings.getD []
  let cs := s.claims.getD []
  if ps.length = 0 then
    match insertAllPK (fun p => p.Provider_ID) ps seedProviders with
    | Except.error e => Except.error e
    | Except.ok ps' =>
      match insertAllPK (fun r => r.Receiver_ID) rs seedReceivers with
      | Except.error e => Except.error e
      | Except.ok rs' =>
        match insertAllPK (fun f => f.Food_ID) ls seedListings with
        | Except.error e => Except.error e
        | Except.ok ls' =>
          match insertAllPK (fun c => c.Claim_ID) cs seedClaims with
          | Except.error e => Except.error e
          | Except.ok cs' => Except.ok ⟨some ps', some rs', some ls', some cs'⟩
  else Except.ok ⟨some ps, some rs, some ls, some cs⟩

/-- The database state produced by `init_db` on a fresh file. -/
def seedDB : DB := ⟨seedProviders, seedReceivers, seedListings, seedClaims⟩

/-! ## General helper lemmas -/

/-- The database with all four tables present but empty. -/
def emptyDB : DB := ⟨[], [], [], []⟩

/-- Every month has at most 31 days. -/
theorem daysInMonth_le (y m : Nat) : daysInMonth y m ≤ 31 := by
  unfold daysInMonth
  split
  · split <;> omega
  · split <;> omega

/-- Every month has at least one day. -/
theorem daysInMonth_pos (y m : Nat) : 1 ≤ daysInMonth y m := by
  unfold daysInMonth
  split
  · split <;> omega
  · split <;> omega

/-- `addDay` strictly increases the chronological key on valid dates. -/
theorem dateKey_lt_addDay (d : Date) (h : ValidDate d) : dateKey d < dateKey (addDay d) := by
  obtain ⟨h1, h2, h3, h4⟩ := h
  have h31 := daysInMonth_le d.year d.month
  unfold addDay
  split
  · simp only [dateKey]
    omega
  · split
    · simp only [dateKey]
      omega
    · simp only [dateKey]
      omega

/-- `addDay` maps valid dates to valid dates. -/
theorem addDay_valid (d : Date) (h : ValidDate d) : ValidDate (addDay d) := by
  obtain ⟨h1, h2, h3, h4⟩ := h
  unfold addDay
  split
  · refine ⟨?_, ?_, ?_, ?_⟩ <;> dsimp only <;> omega
  · split
    · refine ⟨?_, ?_, ?_, ?_⟩
      · dsimp only; omega
      · dsimp only; omega
      · dsimp only; omega
      · exact daysInMonth_pos _ _
    · refine ⟨?_, ?_, ?_, ?_⟩
      · dsimp only; omega
      · dsimp only; omega
      · dsimp only; omega
      · exact daysInMonth_pos _ _

/-! ## Claim theorems -/

/-- Claim C1: Create with a caller-chosen `Food_ID` that already exists in
`Food_Listings` fails with the UNIQUE-constraint violation reported as an
error value (not a crash), and the database — in particular the
pre-existing row with that id — is left entirely unchanged. -/
theorem create_duplicate_id (db : DB) (f : FoodListing)
    (h : ∃ g ∈ db.listings, g.Food_ID = f.Food_ID) :
    createFood f db = (db, some "UNIQUE constraint failed: Food_Listings.Food_ID") := by
  unfold createFood
  rw [if_pos]
  obtain ⟨g, hg, he⟩ := h
  exact List.any_eq_true.mpr ⟨g, hg, by simpa using he⟩

/-- A create request reusing the seeded id 1. -/
def dupRow : FoodListing := ⟨1, "Extra Rice", "Grain", "Dinner", 10, ⟨2025, 9, 1⟩, 1, "Hyderabad"⟩

/-- Witness for C1: creating `dupRow` on the seeded database fails with
the constraint error and leaves the database unchanged. -/
theorem create_duplicate_id_witness :
    createFood dupRow seedDB = (seedDB, some "UNIQUE constraint failed: Food_Listings.Food_ID") :=
  create_duplicate_id seedDB dupRow ⟨riceRow, by decide, by decide⟩

/-- Claim C4: with all three filter inputs empty, the filtered-listing
query returns every row of `Food_Listings`. -/
theorem filtered_listings_no_filters (db : DB) :
    filteredListings "" "" "" db = db.listings := by
  unfold filteredListings
  simp

/-- Claim C6: `Update (fid, qty)` on a missing id is a no-op reporting
zero affected rows; on any state it leaves the other three tables, the
number of listings, and every field of every listing other than the
`Quantity` of rows with id `fid` unchanged, and sets those rows'
`Quantity` to `qty`. -/
theorem update_food_frame (db : DB) (fid qty : Int) :
    ((∀ f ∈ db.listings, f.Food_ID ≠ fid) → updateFood fid qty db = (db, 0))
    ∧ (updateFood fid qty db).1.providers = db.providers
    ∧ (updateFood fid qty db).1.receivers = db.receivers
    ∧ (updateFood fid qty db).1.claims = db.claims
    ∧ (updateFood fid qty db).1.listings.length = db.listings.length
    ∧ ∀ i : Nat, ∀ f f' : FoodListing, db.listings[i]? = some f →
        (updateFood fid qty db).1.listings[i]? = some f' →
        f'.Food_ID = f.Food_ID ∧ f'.Food_Name = f.Food_Name ∧ f'.Food_Type = f.Food_Type
        ∧ f'.Meal_Type = f.Meal_Type ∧ f'.Expiry_Date = f.Expiry_Date
        ∧ f'.Provider_ID = f.Provider_ID ∧ f'.Location = f.Location
        ∧ (f.Food_ID = fid → f'.Quantity = qty)
        ∧ (f.Food_ID ≠ fid → f'.Quantity = f.Quantity) := by
  refine ⟨?_, rfl, rfl, rfl, List.length_map _ _, ?_⟩
  · intro h
    unfold updateFood
    have hmap : (db.listings.map fun f =>
        if f.Food_ID = fid then { f with Quantity := qty } else f) = db.listings := by
      have := List.map_congr_left (l := db.listings)
        (f := fun f => if f.Food_ID = fid then { f with Quantity := qty } else f) (g := id)
        (fun f hf => by simp only [id_eq]; rw [if_neg (h f hf)])
      simpa using this
    have hcnt : (db.listings.countP fun f => f.Food_ID == fid) = 0 :=
      List.countP_eq_zero.mpr (fun f hf => by simpa using h f hf)
    rw [hmap, hcnt]
  · intro i f f' hf hf'
    unfold updateFood at hf'
    dsimp only at hf'
    rw [List.getElem?_map, hf] at hf'
    simp only [Option.map_some'] at hf'
    by_cases hc : f.Food_ID = fid
    · rw [if_pos hc] at hf'
      cases hf'
      exact ⟨rfl, rfl, rfl, rfl, rfl, rfl, rfl, fun _ => rfl, fun hne => absurd hc hne⟩
    · rw [if_neg hc] at hf'
      cases hf'
      exact ⟨rfl, rfl, rfl, rfl, rfl, rfl, rfl, fun he => absurd he hc, fun _ => rfl⟩

/-- The seeded rice row after an update of its quantity to 77. -/
def riceRow77 : FoodListing := { riceRow with Quantity := 77 }

/-- Witness for C6: updating the missing id 99 on the seeded database is
a no-op with zero affected rows, and updating id 1 rewrites only its
quantity. -/
theorem update_food_frame_witness :
    updateFood 99 7 seedDB = (seedDB, 0) ∧ riceRow77.Quantity = 77 :=
  ⟨(update_food_frame seedDB 99 7).1 (by decide),
   ((update_food_frame seedDB 1 77).2.2.2.2.2 0 riceRow riceRow77
      (by decide) (by decide)).2.2.2.2.2.2.2.1 (by decide)⟩

/-- Claim C9 counterexample: on the empty database, "Total Food
Available" returns the SQL `NULL` aggregate (`none`), not the scalar
arithmetic sum (which is 0). -/
theorem total_food_available_empty_cx :
    totalFoodAvailable emptyDB ≠ some ((emptyDB.listings.map (fun f => f.Quantity)).sum) := by
  decide

/-- Claim C9 (amended): on every database state with at least one
listing, "Total Food Available" is the arithmetic sum of `Quantity` over
all listings; on the seed dataset it is 150. -/
theorem total_food_available_sum :
    (∀ db : DB, db.listings ≠ [] →
        totalFoodAvailable db = some ((db.listings.map (fun f => f.Quantity)).sum))
    ∧ totalFoodAvailable seedDB = some 150 := by
  constructor
  · intro db h
    unfold totalFoodAvailable
    split
    · exact absurd (by assumption) h
    · rfl
  · decide

/-- Witness for C9 (amended): the seeded database has listings, and the
report equals the sum of their quantities. -/
theorem total_food_available_sum_witness :
    totalFoodAvailable seedDB = some ((seedDB.listings.map (fun f => f.Quantity)).sum) :=
  total_food_available_sum.1 seedDB (by decide)

/-- Claim C10: the Read branch returns at most the first 20 rows of
`Food_Listings`; its prefix agrees with the table, and with more than 20
listings some rows are omitted. -/
theorem read_listings_limit (db : DB) :
    (readListings db).length ≤ 20
    ∧ (∀ i : Nat, i < 20 → (readListings db)[i]? = db.listings[i]?)
    ∧ (20 < db.listings.length → (readListings db).length < db.listings.length) := by
  refine ⟨?_, ?_, ?_⟩
  · unfold readListings
    rw [List.length_take]
    exact min_le_left _ _
  · intro i hi
    unfold readListings
    rw [List.getElem?_take, if_pos hi]
  · intro h
    unfold readListings
    rw [List.length_take]
    omega

/-- A database with 21 listings, exercising the Read cap. -/
def db21 : DB :=
  ⟨[], [], (List.range 21).map (fun i => ⟨Int.ofNat i, "x", "x", "x", 1, ⟨2025, 1, 1⟩, 1, "x"⟩), []⟩

/-- Witness for C10: with 21 listings, Read shows fewer rows than the
table holds, while agreeing on the first position. -/
theorem read_listings_limit_witness :
    (readListings db21).length < db21.listings.length
    ∧ (readListings db21)[0]? = db21.listings[0]? :=
  ⟨(read_listings_limit db21).2.2 (by decide), (read_listings_limit db21).2.1 0 (by decide)⟩

/-- Claim C7: for a fixed `today`, "Listings Near Expiry" returns exactly
the listings whose expiry date is on or before `today + 1 day` (the rows
of the filter, as a permutation), ordered ascending by expiry date with
no row limit; a row expiring exactly on `today + 1` is included and, for
a valid `today`, a row expiring on `today + 2` is excluded. -/
theorem listings_near_expiry_correct (db : DB) (today : Date) :
    (listingsNearExpiry today db).Perm
        (db.listings.filter fun f => decide (dateLe f.Expiry_Date (addDay today)))
    ∧ List.Sorted expiryLe (listingsNearExpiry today db)
    ∧ (∀ f ∈ db.listings, f.Expiry_Date = addDay today → f ∈ listingsNearExpiry today db)
    ∧ (ValidDate today → ∀ f ∈ db.listings, f.Expiry_Date = addDay (addDay today) →
        f ∉ listingsNearExpiry today db) := by
  refine ⟨List.perm_insertionSort _ _, List.sorted_insertionSort _ _, ?_, ?_⟩
  · intro f hf he
    unfold listingsNearExpiry
    rw [List.mem_insertionSort]
    exact List.mem_filter.mpr ⟨hf, by rw [he]; exact decide_eq_true (Nat.le_refl _)⟩
  · intro hv f _ he hmem
    unfold listingsNearExpiry at hmem
    rw [List.mem_insertionSort] at hmem
    have hle : dateLe f.Expiry_Date (addDay today) :=
      of_decide_eq_true (List.mem_filter.mp hmem).2
    have hlt := dateKey_lt_addDay (addDay today) (addDay_valid today hv)
    rw [he] at hle
    exact absurd hle (Nat.not_le.mpr hlt)

/-- A listing expiring two days after the fixed clock 2025-08-19. -/
def lateRow : FoodListing := ⟨3, "Milk", "Dairy", "Breakfast", 20, ⟨2025, 8, 21⟩, 1, "Hyderabad"⟩

/-- The seeded database plus `lateRow`, exercising both expiry boundaries. -/
def expiryDB : DB := ⟨seedProviders, seedReceivers, seedListings ++ [lateRow], seedClaims⟩

/-- Witness for C7: with `today` 2025-08-19, the rice row (expiry
2025-08-20 = today + 1) is reported and the milk row (expiry 2025-08-21 =
today + 2) is not. -/
theorem listings_near_expiry_correct_witness :
    riceRow ∈ listingsNearExpiry ⟨2025, 8, 19⟩ expiryDB
    ∧ lateRow ∉ listingsNearExpiry ⟨2025, 8, 19⟩ expiryDB :=
  ⟨(listings_near_expiry_correct expiryDB ⟨2025, 8, 19⟩).2.2.1 riceRow (by decide) (by decide),
   (listings_near_expiry_correct expiryDB ⟨2025, 8, 19⟩).2.2.2 (by decide) lateRow
     (by decide) (by decide)⟩

/-- `anySuffix` only depends on the values of its predicate. -/
theorem anySuffix_congr (p q : List Char → Bool) (hpq : ∀ u, p u = q u) :
    ∀ t, anySuffix p t = anySuffix q t := by
  intro t
  induction t with
  | nil => simpa [anySuffix] using hpq []
  | cons c t ih => simp [anySuffix, hpq (c :: t), ih]

/-- The empty suffix makes `anySuffix isEmpty` true on every list. -/
theorem anySuffix_isEmpty (t : List Char) : anySuffix (fun u => u.isEmpty) t = true := by
  induction t with
  | nil => rfl
  | cons c t ih => simp [anySuffix, ih]

/-- A wildcard-free `LIKE` pattern followed by `%` matches exactly the
lists it is a case-folded prefix of. -/
theorem likeMatch_wildfree_append (s : List Char) (hw : ∀ c ∈ s, c ≠ '%' ∧ c ≠ '_') :
    ∀ t, likeMatch (s ++ ['%']) t = startsCI s t := by
  induction s with
  | nil =>
    intro t
    show likeMatch ['%'] t = true
    unfold likeMatch
    rw [if_pos rfl]
    have h1 : anySuffix (fun u => likeMatch [] u) t = anySuffix (fun u => u.isEmpty) t :=
      anySuffix_congr _ _ (fun u => rfl) t
    rw [h1]
    exact anySuffix_isEmpty t
  | cons p ps ih =>
    intro t
    obtain ⟨hp1, hp2⟩ := hw p (List.mem_cons_self p ps)
    have hw' : ∀ c ∈ ps, c ≠ '%' ∧ c ≠ '_' := fun c hc => hw c (List.mem_cons_of_mem p hc)
    cases t with
    | nil =>
      show likeMatch (p :: (ps ++ ['%'])) [] = false
      unfold likeMatch
      rw [if_neg hp1]
    | cons c t' =>
      show likeMatch (p :: (ps ++ ['%'])) (c :: t') = startsCI (p :: ps) (c :: t')
      unfold likeMatch
      rw [if_neg hp1]
      show ((decide (p = '_') || charEqCI p c) && likeMatch (ps ++ ['%']) t')
        = startsCI (p :: ps) (c :: t')
      rw [decide_eq_false hp2, Bool.false_or, ih hw' t']
      rfl

/-- On wildcard-free filters, the `%…%` `LIKE` test is exactly
case-folded substring containment. -/
theorem likeContains_eq_containsCI (pat s : String) (hw : noWildcard pat) :
    likeContains pat s = containsCI pat.data s.data := by
  unfold likeContains containsCI
  show likeMatch ('%' :: (pat.data ++ ['%'])) s.data = _
  unfold likeMatch
  rw [if_pos rfl]
  exact anySuffix_congr _ _ (fun u => likeMatch_wildfree_append pat.data hw u) s.data

/-- Claim C5 counterexample: the filter string `_` is a `LIKE`
single-character wildcard, so the filtered query returns the row with
`Location` `"ab"` even though `"ab"` does not contain `"_"` as a
substring (also not up to case folding). -/
theorem city_filter_substring_cx :
    filteredListings "_" "" "" (⟨[], [], [⟨1, "ab", "x", "x", 1, ⟨2025, 1, 1⟩, 1, "ab"⟩], []⟩ : DB)
        = [⟨1, "ab", "x", "x", 1, ⟨2025, 1, 1⟩, 1, "ab"⟩]
    ∧ containsCI "_".data "ab".data = false := by
  decide

/-- Claim C5 (amended): for every database state and every non-empty
city filter containing no `LIKE` metacharacter (`%` or `_`), with the
other two filters empty, the filtered-listing query returns exactly the
rows whose `Location` contains the filter as a substring up to the
engine's ASCII case folding. -/
theorem city_filter_substring (db : DB) (s : String) (h : s ≠ "") (hw : noWildcard s) :
    filteredListings s "" "" db
      = db.listings.filter fun f => containsCI s.data f.Location.data := by
  unfold filteredListings
  apply List.filter_congr
  intro f _
  rw [if_neg h, if_pos rfl, if_pos rfl]
  simp only [Bool.and_true]
  exact likeContains_eq_containsCI s f.Location hw

/-- Witness for C5 (amended): filtering the seeded database by city
`"Hyd"` agrees with case-folded substring containment. -/
theorem city_filter_substring_witness :
    filteredListings "Hyd" "" "" seedDB
      = seedDB.listings.filter fun f => containsCI "Hyd".data f.Location.data :=
  city_filter_substring seedDB "Hyd" (by decide) (by decide)

/-- Claim C2 counterexample input: two distinct listings (distinct ids)
sharing the `Food_Name` `"Rice"`, one claim on each. -/
def sameNameDB : DB :=
  ⟨[⟨1, "P", "NGO", "c", "X"⟩], [⟨1, "R", "c", "X"⟩],
   [⟨1, "Rice", "Grain", "Lunch", 5, ⟨2025, 1, 1⟩, 1, "X"⟩,
    ⟨2, "Rice", "Grain", "Dinner", 7, ⟨2025, 1, 2⟩, 1, "Y"⟩],
   [⟨1, 1, 1, "Pending"⟩, ⟨2, 2, 1, "Pending"⟩]⟩

/-- Claim C2 counterexample: `sameNameDB` has two distinct listings, yet
"Claims Per Food Item" reports a single row (the SQL groups by
`Food_Name`, not per listing), merging their claim counts. -/
theorem claims_per_food_item_cx :
    sameNameDB.listings.length = 2
    ∧ (sameNameDB.listings.map fun f => f.Food_ID).Nodup
    ∧ claimsPerFoodItem sameNameDB = [("Rice", 2)] := by
  decide

/-- Claim C2 (amended): "Claims Per Food Item" returns at most 10 rows,
ordered by claim count descending, one row per distinct `Food_Name`
(listings sharing a name are merged); each row's count is the number of
claims joined to the listings of that name (zero-claim names included
with count 0), and when there are at most 10 distinct names every
listing's name is reported. -/
theorem claims_per_food_item_props (db : DB) :
    (claimsPerFoodItem db).length ≤ 10
    ∧ List.Sorted descBySnd (claimsPerFoodItem db)
    ∧ (∀ p ∈ claimsPerFoodItem db,
        (∃ f ∈ db.listings, f.Food_Name = p.1) ∧ p.2 = nameClaimTotal db p.1)
    ∧ ((db.listings.map (fun f => f.Food_Name)).dedup.length ≤ 10 →
        ∀ f ∈ db.listings,
          (f.Food_Name, nameClaimTotal db f.Food_Name) ∈ claimsPerFoodItem db) := by
  refine ⟨?_, ?_, ?_, ?_⟩
  · unfold claimsPerFoodItem
    rw [List.length_take]
    exact min_le_left _ _
  · unfold claimsPerFoodItem
    exact List.Pairwise.sublist (List.take_sublist _ _) (List.sorted_insertionSort _ _)
  · intro p hp
    unfold claimsPerFoodItem at hp
    have h2 := List.take_subset _ _ hp
    have h3 := (List.mem_insertionSort _).mp h2
    obtain ⟨n, hn, hpe⟩ := List.mem_map.mp h3
    obtain ⟨f, hf, hfn⟩ := List.mem_map.mp (List.mem_dedup.mp hn)
    subst hpe
    exact ⟨⟨f, hf, hfn⟩, rfl⟩
  · intro hlen f hf
    have hnames : f.Food_Name ∈ (db.listings.map (fun g => g.Food_Name)).dedup :=
      List.mem_dedup.mpr (List.mem_map.mpr ⟨f, hf, rfl⟩)
    have hrow : (f.Food_Name, nameClaimTotal db f.Food_Name)
        ∈ ((db.listings.map (fun g => g.Food_Name)).dedup).map
            (fun n => (n, nameClaimTotal db n)) :=
      List.mem_map.mpr ⟨f.Food_Name, hnames, rfl⟩
    unfold claimsPerFoodItem
    rw [List.take_of_length_le]
    · exact (List.mem_insertionSort _).mpr hrow
    · rw [List.length_insertionSort, List.length_map]
      exact hlen

/-- Witness for C2 (amended): the seeded rice listing's name is reported
by "Claims Per Food Item" with its claim total. -/
theorem claims_per_food_item_props_witness :
    ("Rice Bags", nameClaimTotal seedDB "Rice Bags") ∈ claimsPerFoodItem seedDB :=
  (claims_per_food_item_props seedDB).2.2.2 (by decide) riceRow (by decide)

/-- With pairwise-distinct `Food_ID`s, filtering by one id gives exactly
the (at most one) row `find?` locates. -/
theorem filter_eq_find_toList (l : List FoodListing) (k : Int)
    (h : (l.map fun f => f.Food_ID).Nodup) :
    l.filter (fun f => f.Food_ID == k) = (l.find? (fun f => f.Food_ID == k)).toList := by
  induction l with
  | nil => rfl
  | cons a l ih =>
    rw [List.map_cons, List.nodup_cons] at h
    obtain ⟨ha, hl⟩ := h
    rw [List.filter_cons, List.find?_cons]
    by_cases hak : a.Food_ID = k
    · have hb : (a.Food_ID == k) = true := beq_iff_eq.mpr hak
      have hnil : l.filter (fun f => f.Food_ID == k) = [] :=
        List.filter_eq_nil_iff.mpr (fun f hf hbeq =>
          ha (List.mem_map.mpr ⟨f, hf, by rw [beq_iff_eq.mp hbeq, hak]⟩))
      simp [hb, hnil]
    · have hb : (a.Food_ID == k) = false := beq_eq_false_iff_ne.mpr hak
      simp only [hb, Bool.false_eq_true, if_false]
      exact ih hl

/-- Flattening singleton-or-empty option lists is `filterMap`. -/
theorem flatten_map_toList {α β : Type} (g : α → Option β) (l : List α) :
    (l.map fun a => (g a).toList).flatten = l.filterMap g := by
  induction l with
  | nil => rfl
  | cons a l ih =>
    cases hg : g a with
    | none =>
      simp only [List.map_cons, List.flatten_cons, List.filterMap_cons, hg,
        Option.toList_none, List.nil_append]
      exact ih
    | some b =>
      simp only [List.map_cons, List.flatten_cons, List.filterMap_cons, hg,
        Option.toList_some, List.singleton_append]
      rw [ih]

/-- Under unique listing ids, the SQL join's location multiset is the
spec's per-claim claimed-listing location list. -/
theorem joinedLocations_eq_claimLocations (db : DB)
    (h : (db.listings.map fun f => f.Food_ID).Nodup) :
    joinedLocations db = claimLocations db := by
  unfold joinedLocations claimLocations
  have hinner : ∀ c : Claim,
      (db.listings.filter (fun f => f.Food_ID == c.Food_ID)).map (fun f => f.Location)
        = ((db.listings.find? (fun f => f.Food_ID == c.Food_ID)).map
            (fun f => f.Location)).toList := by
    intro c
    rw [filter_eq_find_toList db.listings c.Food_ID h]
    cases db.listings.find? (fun f => f.Food_ID == c.Food_ID) <;> rfl
  rw [List.map_congr_left (fun c _ => hinner c)]
  exact flatten_map_toList _ _

/-- Claim C3: "Claims by City" groups claim counts by the claimed
listing's `Location` (the spec-modelled grouping), for every state whose
listing ids are unique, and on the seed dataset it reports exactly
Hyderabad with 1 claim and Mumbai with 1 claim. -/
theorem claims_by_city_correct :
    (∀ db : DB, (db.listings.map fun f => f.Food_ID).Nodup →
        claimsByCity db = claimsByCitySpec db)
    ∧ ("Hyderabad", 1) ∈ claimsByCity seedDB
    ∧ ("Mumbai", 1) ∈ claimsByCity seedDB
    ∧ (claimsByCity seedDB).length = 2 := by
  refine ⟨?_, by decide, by decide, by decide⟩
  intro db h
  unfold claimsByCity claimsByCitySpec
  rw [joinedLocations_eq_claimLocations db h]

/-- Witness for C3: the seeded database has unique listing ids, and its
"Claims by City" report coincides with the spec's grouping. -/
theorem claims_by_city_correct_witness :
    claimsByCity seedDB = claimsByCitySpec seedDB :=
  claims_by_city_correct.1 seedDB (by decide)

/-- A successful PRIMARY-KEY-checked batch insert appends its rows. -/
theorem insertAllPK_ok {α : Type} (key : α → Int) (rows : List α) :
    ∀ (tbl u : List α), insertAllPK key tbl rows = Except.ok u → u = tbl ++ rows := by
  induction rows with
  | nil =>
    intro tbl u h
    unfold insertAllPK at h
    cases h
    simp
  | cons r rows ih =>
    intro tbl u h
    unfold insertAllPK at h
    split at h
    · cases h
    · have := ih (tbl ++ [r]) u h
      simpa using this

/-- `init_db` on four present tables with a non-empty Providers table
returns the state unchanged. -/
theorem init_db_of_nonempty (ps : List Provider) (rs : List Receiver)
    (ls : List FoodListing) (cs : List Claim) (h : ps.length ≠ 0) :
    init_db ⟨some ps, some rs, some ls, some cs⟩
      = Except.ok ⟨some ps, some rs, some ls, some cs⟩ := by
  simp only [init_db, Option.getD_some]
  rw [if_neg h]

/-- Claim C8: initialization is idempotent and seeds iff Providers is
empty: whenever `init_db` succeeds, running it again changes nothing;
with a non-empty Providers table the tables are merely created-if-absent
with their rows untouched, and with an empty (or absent) Providers table
exactly the fixed bootstrap rows are appended to the four tables. -/
theorem init_db_idempotent (s t : RawDB) (h : init_db s = Except.ok t) :
    init_db t = Except.ok t
    ∧ ((s.providers.getD []).length ≠ 0 →
        t = ⟨some (s.providers.getD []), some (s.receivers.getD []),
             some (s.listings.getD []), some (s.claims.getD [])⟩)
    ∧ ((s.providers.getD []).length = 0 →
        t.providers = some seedProviders
        ∧ t.receivers = some (s.receivers.getD [] ++ seedReceivers)
        ∧ t.listings = some (s.listings.getD [] ++ seedListings)
        ∧ t.claims = some (s.claims.getD [] ++ seedClaims)) := by
  simp only [init_db] at h
  by_cases hps : (s.providers.getD []).length = 0
  · rw [if_pos hps] at h
    have hpsnil : s.providers.getD [] = [] := List.eq_nil_of_length_eq_zero hps
    split at h
    · cases h
    next ps' h1 =>
      split at h
      · cases h
      next rs' h2 =>
        split at h
        · cases h
        next ls' h3 =>
          split at h
          · cases h
          next cs' h4 =>
            cases h
            have e1 : ps' = seedProviders := by
              have := insertAllPK_ok _ _ _ _ h1
              rw [hpsnil] at this
              simpa using this
            have e2 : rs' = s.receivers.getD [] ++ seedReceivers := insertAllPK_ok _ _ _ _ h2
            have e3 : ls' = s.listings.getD [] ++ seedListings := insertAllPK_ok _ _ _ _ h3
            have e4 : cs' = s.claims.getD [] ++ seedClaims := insertAllPK_ok _ _ _ _ h4
            refine ⟨init_db_of_nonempty ps' rs' ls' cs' ?_, fun hne => absurd hps hne,
              fun _ => ⟨by rw [e1], by rw [e2], by rw [e3], by rw [e4]⟩⟩
            rw [e1]
            decide
  · rw [if_neg hps] at h
    cases h
    exact ⟨init_db_of_nonempty _ _ _ _ hps, fun _ => rfl, fun he => absurd he hps⟩

/-- The database file state after a successful first initialization. -/
def seededRawDB : RawDB :=
  ⟨some seedProviders, some seedReceivers, some seedListings, some seedClaims⟩

/-- Witness for C8: initializing a fresh file seeds the bootstrap data,
and re-running `init_db` on the result returns it unchanged. -/
theorem init_db_idempotent_witness :
    init_db seededRawDB = Except.ok seededRawDB :=
  (init_db_idempotent ⟨none, none, none, none⟩ seededRawDB rfl).1

